import Mathlib

set_option maxRecDepth 100000

/-!
Shallow embedding of the vib-play backend gateway (Express server in the
repository: provider registry `utils/providers.js`, rate-limiting middleware,
Supabase conversation store helpers, the `/api/ask-ai` fallback orchestrator,
and the Gemini SDK adapter `utils/providers/gemini.js`), together with
theorems checking the natural-language specification against it.

JavaScript runtime details that the claims depend on are modelled explicitly:
string truthiness (`""` is falsy), `a || b` fallback on falsy values,
`x ?? d` nullish coalescing, `parseInt(v) || d` (so `"0"` and `NaN` both fall
back to `d`), and template-literal rendering of `null`.
-/

namespace VibPlay

/-- Truthiness of an optional JS string: `undefined` and `""` are falsy. -/
def truthyS : Option String → Bool
  | none => false
  | some s => s ≠ ""

/-- JS `a || b` where `a` is an optional string: falsy `a` (absent or `""`)
falls back to `b`. -/
def jsOrS : Option String → String → String
  | none, d => d
  | some s, d => if s = "" then d else s

/-- Template-literal rendering of a nullable string: `null` prints as
`"null"`. -/
def jsShowNullable : Option String → String
  | none => "null"
  | some s => s

/-- Strip leading and trailing whitespace characters from a character
list. -/
def trimCharList (cs : List Char) : List Char :=
  ((cs.dropWhile Char.isWhitespace).reverse.dropWhile Char.isWhitespace).reverse

/-- Model of JS `String.prototype.trim`: drop whitespace from both ends. -/
def jsTrim (s : String) : String :=
  String.mk (trimCharList s.toList)

/-- Does the first character list start with the second? -/
def charListStartsWith : List Char → List Char → Bool
  | _, [] => true
  | [], _ :: _ => false
  | h :: hs, p :: ps => h = p && charListStartsWith hs ps

/-- Does the first character list contain the second as a contiguous run? -/
def charListContains : List Char → List Char → Bool
  | [], pat => pat.isEmpty
  | h :: t, pat => charListStartsWith (h :: t) pat || charListContains t pat

/-- Numeric value of a list of decimal digit characters. -/
def digitsToNat (ds : List Char) : Nat :=
  ds.foldl (fun a c => 10 * a + (c.toNat - 48)) 0

/-- Model of JS `parseInt` on a decimal string: optional sign then a longest
digit prefix; `none` models `NaN`. -/
def jsParseInt (s : String) : Option Int :=
  let cs := trimCharList s.toList
  let signRest : Int × List Char :=
    match cs with
    | '-' :: r => (-1, r)
    | '+' :: r => (1, r)
    | r => (1, r)
  let ds := signRest.2.takeWhile Char.isDigit
  if ds.isEmpty then none
  else some (signRest.1 * (digitsToNat ds : Int))

/-- Model of JS `parseFloat` on a decimal literal (optional sign, integer
digits, optional fractional digits); `none` models `NaN`. -/
def jsParseFloat (s : String) : Option Rat :=
  let cs := trimCharList s.toList
  let signRest : Rat × List Char :=
    match cs with
    | '-' :: r => (-1, r)
    | '+' :: r => (1, r)
    | r => (1, r)
  let intDs := signRest.2.takeWhile Char.isDigit
  let rest := signRest.2.drop intDs.length
  match rest with
  | '.' :: fracPart =>
    let fracDs := fracPart.takeWhile Char.isDigit
    if intDs.isEmpty && fracDs.isEmpty then none
    else
      some (signRest.1 *
        ((digitsToNat intDs : Rat) + (digitsToNat fracDs : Rat) / (10 : Rat) ^ fracDs.length))
  | _ =>
    if intDs.isEmpty then none
    else some (signRest.1 * (digitsToNat intDs : Rat))

/-- JS `n || d` for a parsed number: `NaN` (`none`) and `0` are falsy and
fall back to `d`. -/
def numOr (v : Option Int) (d : Int) : Int :=
  match v with
  | none => d
  | some x => if x = 0 then d else x

/-- The rational 0.7, as an explicit normalized fraction (so that it reduces
inside the kernel). -/
def TEMP_0_7 : Rat := ⟨7, 10, by decide, by decide⟩

/-- The rational 0.95, as an explicit normalized fraction. -/
def TOP_P_0_95 : Rat := ⟨19, 20, by decide, by decide⟩

/-- The rational 0.5, as an explicit normalized fraction. -/
def HALF : Rat := ⟨1, 2, by decide, by decide⟩

/-- JS `x || d` for a parsed float: `NaN` (`none`) and `0` fall back. -/
def ratOr (v : Option Rat) (d : Rat) : Rat :=
  match v with
  | none => d
  | some x => if x = 0 then d else x

/-- Model of JS `String.prototype.includes`: contiguous substring test. -/
def jsIncludes (s pat : String) : Bool :=
  charListContains s.toList pat.toList

/-- Model of `Math.ceil (x / b)` for an integer `x` and positive integer `b`. -/
def jsCeilDiv (x b : Int) : Int :=
  Int.ediv (x + b - 1) b

/-- Model of `Math.min` over a list of integers (only used on non-empty lists). -/
def listMin : List Int → Int
  | [] => 0
  | x :: xs => xs.foldl min x

/-! ## Provider registry (`src/utils/providers.js`) -/

/-- One entry of the `PROVIDERS` catalog. -/
structure ProviderConfig where
  name : String
  apiKeyEnv : String
  modelEnv : String
  baseUrl : Option String
  defaultModel : String
  models : List String
  maxTokensLimit : Nat
  supportsStreaming : Bool
deriving DecidableEq, Repr

/-- The `PROVIDERS` object, in declaration order (which is the iteration
order of `Object.keys`). -/
def PROVIDERS : List (String × ProviderConfig) :=
  [ ("openai",
     { name := "OpenAI", apiKeyEnv := "OPENAI_API_KEY", modelEnv := "OPENAI_MODEL",
       baseUrl := some "https://api.openai.com/v1", defaultModel := "gpt-4o",
       models := ["gpt-4o", "gpt-4o-mini", "gpt-4-turbo", "gpt-4", "gpt-3.5-turbo"],
       maxTokensLimit := 128000, supportsStreaming := true }),
    ("openrouter",
     { name := "OpenRouter", apiKeyEnv := "OPENROUTER_API_KEY", modelEnv := "OPENROUTER_MODEL",
       baseUrl := some "https://openrouter.ai/api/v1", defaultModel := "deepseek/deepseek-chat-v3.1",
       models := ["qwen/qwen3-235b-a22b-thinking-2507", "deepseek/deepseek-chat-v3.1",
                  "openai/gpt-oss-120b", "x-ai/grok-code-fast-1", "mistralai/codestral-2508",
                  "anthropic/claude-3-5-haiku", "anthropic/claude-3-5-sonnet",
                  "meta-llama/llama-3.3-70b-instruct", "google/gemini-2.0-flash-exp",
                  "nvidia/llama-3.1-nemotron-70b-instruct"],
       maxTokensLimit := 200000, supportsStreaming := true }),
    ("xai",
     { name := "XAI (Grok)", apiKeyEnv := "XAI_API_KEY", modelEnv := "XAI_MODEL",
       baseUrl := some "https://api.x.ai/v1", defaultModel := "grok-4",
       models := ["grok-4", "grok-beta", "grok-vision-beta"],
       maxTokensLimit := 131072, supportsStreaming := true }),
    ("groq",
     { name := "Groq", apiKeyEnv := "GROQ_API_KEY", modelEnv := "GROQ_MODEL",
       baseUrl := some "https://api.groq.com/openai/v1", defaultModel := "llama-3.3-70b-versatile",
       models := ["llama-3.3-70b-versatile", "llama-3.1-70b-versatile", "llama-3.1-8b-instant",
                  "mixtral-8x7b-32768", "gemma2-9b-it", "llama-3.2-90b-vision-preview",
                  "llama-3.2-11b-vision-preview"],
       maxTokensLimit := 32768, supportsStreaming := true }),
    ("perplexity",
     { name := "Perplexity", apiKeyEnv := "PERPLEXITY_API_KEY", modelEnv := "PERPLEXITY_MODEL",
       baseUrl := some "https://api.perplexity.ai", defaultModel := "llama-3.1-sonar-large-128k-online",
       models := ["llama-3.1-sonar-large-128k-online", "llama-3.1-sonar-small-128k-online",
                  "llama-3.1-sonar-large-128k-chat", "llama-3.1-sonar-small-128k-chat",
                  "llama-3.1-8b-instruct", "llama-3.1-70b-instruct"],
       maxTokensLimit := 131072, supportsStreaming := true }),
    ("gemini",
     { name := "Google Gemini", apiKeyEnv := "GEMINI_API_KEY", modelEnv := "GEMINI_MODEL",
       baseUrl := none, defaultModel := "gemini-1.5-pro",
       models := ["gemini-1.5-pro", "gemini-1.5-flash", "gemini-2.0-flash-exp"],
       maxTokensLimit := 30000, supportsStreaming := false }) ]

/-- Lookup of `PROVIDERS[id]`. -/
def lookupProvider (id : String) : Option ProviderConfig :=
  (PROVIDERS.find? (fun p => p.1 = id)).map Prod.snd

/-! ## Environment configuration (server top) -/

/-- The process environment: a partial map from variable names to strings. -/
def Env : Type := String → Option String

/-- Configuration `parseInt(process.env.DEFAULT_MAX_TOKENS) || 8000`. -/
def DEFAULT_MAX_TOKENS (env : Env) : Int :=
  numOr ((env "DEFAULT_MAX_TOKENS").bind jsParseInt) 8000

/-- Configuration `parseFloat(process.env.DEFAULT_TEMPERATURE) || 0.7`. -/
def DEFAULT_TEMPERATURE (env : Env) : Rat :=
  ratOr ((env "DEFAULT_TEMPERATURE").bind jsParseFloat) TEMP_0_7

/-- Configuration `parseInt(process.env.IP_RATE_LIMIT) || 100`. -/
def IP_RATE_LIMIT (env : Env) : Int :=
  numOr ((env "IP_RATE_LIMIT").bind jsParseInt) 100

/-! ## Rate-limiting middleware (per-client slice) -/

/-- Outcome of the middleware for one request: `limited` with the computed
`waitTimeMinutes` (0 when admitted). -/
structure RateDecision where
  limited : Bool
  waitTimeMinutes : Int
deriving DecidableEq, Repr

/-- One pass of the rate-limiting middleware for a single client, given the
effective limit, the client's stored timestamp list and the current time in
milliseconds.  Mirrors the middleware body: when the limit is `≤ 0` the
request passes untouched; otherwise timestamps `≤ now − 3600000` are filtered
out, the request is rejected when the remaining count reaches the limit
(with `resetTime = min + 3600000` and `waitTimeMinutes = ceil((resetTime −
now) / 60000)`), and otherwise `now` is appended and the request admitted. -/
def rateLimitStep (limit : Int) (times : List Int) (now : Int) :
    RateDecision × List Int :=
  if limit ≤ 0 then (⟨false, 0⟩, times)
  else
    let kept := times.filter (fun t => now - 3600000 < t)
    if limit ≤ (kept.length : Int) then
      let resetTime := listMin kept + 3600000
      (⟨true, jsCeilDiv (resetTime - now) 60000⟩, kept)
    else
      (⟨false, 0⟩, kept ++ [now])

/-- Sequentially run the middleware over a list of request times for one
client, threading the stored timestamp list. -/
def processRequests (limit : Int) : List Int → List Int →
    List RateDecision × List Int
  | [], times => ([], times)
  | now :: rest, times =>
    let step := rateLimitStep limit times now
    let tail := processRequests limit rest step.2
    (step.1 :: tail.1, tail.2)

/-! ## Conversation store (`saveMessage` / `getChatHistory`) -/

/-- A persisted row of the `chat_messages` table (the `created_at` column is
the database insertion-order key used by the history query). -/
structure ChatRow where
  session_id : String
  role : String
  content : String
  created_at : Int
deriving DecidableEq, Repr

/-- Insert a row into a list sorted by ascending `created_at`. -/
def insertByCreatedAt (r : ChatRow) : List ChatRow → List ChatRow
  | [] => [r]
  | x :: xs =>
    if r.created_at < x.created_at then r :: x :: xs
    else x :: insertByCreatedAt r xs

/-- Sort rows by ascending `created_at` (the `order('created_at',
{ascending: true})` clause of the history query). -/
def sortByCreatedAt : List ChatRow → List ChatRow
  | [] => []
  | x :: xs => insertByCreatedAt x (sortByCreatedAt xs)

/-- Model of `getChatHistory(sessionId)`: with no Supabase client it returns `[]`;
otherwise it selects the session's rows ordered by `created_at` ascending
and limited to 50. -/
def getChatHistory (store : Option (List ChatRow)) (sessionId : String) :
    List ChatRow :=
  match store with
  | none => []
  | some rows =>
    (sortByCreatedAt (rows.filter (fun r => r.session_id = sessionId))).take 50

/-! ## Canonical messages and the Gemini adapter (`utils/providers/gemini.js`) -/

/-- A chat message as passed around the server: the role is a plain string
(`"system"`, `"user"`, `"assistant"`, or whatever the store returned). -/
structure Message where
  role : String
  content : String
deriving DecidableEq, Repr

/-- One entry of the Gemini-format message array: `{role, parts:[{text}]}`
with a single text part. -/
structure GeminiContent where
  role : String
  text : String
deriving DecidableEq, Repr

/-- The `generationConfig` object built by the adapter. -/
structure GenerationConfig where
  temperature : Rat
  topP : Rat
  topK : Nat
  maxOutputTokens : Int
deriving DecidableEq, Repr

/-- One `safetySettings` entry (SDK enum members are these strings). -/
structure SafetySetting where
  category : String
  threshold : String
deriving DecidableEq, Repr

/-- The options object of `generateResponse` (both fields may be absent). -/
structure GeminiOptions where
  maxTokens : Option Int
  temperature : Option Rat
deriving DecidableEq, Repr

/-- The adapter's per-message conversion: `assistant` maps to `model`, every
other non-system role maps to `user`; the content becomes the single part. -/
def geminiMapMsg (m : Message) : GeminiContent :=
  ⟨if m.role = "assistant" then "model" else "user", m.content⟩

/-- The four fixed safety settings of the adapter. -/
def geminiSafetySettings : List SafetySetting :=
  [ ⟨"HARM_CATEGORY_HARASSMENT", "BLOCK_MEDIUM_AND_ABOVE"⟩,
    ⟨"HARM_CATEGORY_HATE_SPEECH", "BLOCK_MEDIUM_AND_ABOVE"⟩,
    ⟨"HARM_CATEGORY_SEXUALLY_EXPLICIT", "BLOCK_MEDIUM_AND_ABOVE"⟩,
    ⟨"HARM_CATEGORY_DANGEROUS_CONTENT", "BLOCK_MEDIUM_AND_ABOVE"⟩ ]

/-- Everything `GeminiProvider.generateResponse` hands to the SDK: the chat
session configuration plus the text finally passed to `sendMessage`. -/
structure GeminiRequest where
  modelName : String
  systemInstruction : Option String
  history : List GeminiContent
  message : String
  generationConfig : GenerationConfig
  safetySettings : List SafetySetting
deriving DecidableEq, Repr

/-- The request-construction part of `GeminiProvider.generateResponse`.
`systemInstruction` is the content of the first system-role message;
`chatMessages` is the non-system messages converted by `geminiMapMsg`;
`generationConfig` fixes `topP = 0.95`, `topK = 40` and defaults
`temperature`/`maxOutputTokens` via `??`; the system-instruction field is
attached only when the found content is truthy (`s && {...}` spread); the
history is `chatMessages.slice(0, -1)` and the sent message is
`chatMessages[chatMessages.length - 1].parts[0].text` — when `chatMessages`
is empty that indexing dereferences `undefined` and throws, modelled here as
`none`. -/
def geminiBuildRequest (modelName : String) (messages : List Message)
    (options : GeminiOptions) : Option GeminiRequest :=
  let systemInstruction :=
    (messages.find? (fun m => m.role = "system")).map Message.content
  let chatMessages :=
    (messages.filter (fun m => m.role ≠ "system")).map geminiMapMsg
  let generationConfig : GenerationConfig :=
    ⟨options.temperature.getD TEMP_0_7, TOP_P_0_95, 40, options.maxTokens.getD 8192⟩
  match chatMessages.getLast? with
  | none => none
  | some last =>
    some
      { modelName := if modelName = "" then "gemini-1.5-pro" else modelName,
        systemInstruction :=
          match systemInstruction with
          | some s => if s = "" then none else some s
          | none => none,
        history := chatMessages.dropLast,
        message := last.text,
        generationConfig := generationConfig,
        safetySettings := geminiSafetySettings }

/-- The message list the `/api/test-connection` gemini branch sends:
`[{role: 'user', content: 'Ping'}]`. -/
def testConnectionGeminiMessages : List Message :=
  [⟨"user", "Ping"⟩]

/-! ## `/api/ask-ai` orchestrator -/

/-- The request body of `POST /api/ask-ai` (absent fields are `none`;
numbers are modelled as `Int`/`Rat`). -/
structure AskReq where
  prompt : Option String
  provider : Option String
  model : Option String
  sessionId : Option String
  templateId : Option String
  stack : Option String
  maxTokens : Option Int
  temperature : Option Rat
deriving Repr

/-- Validation check `!prompt?.trim()`: the prompt is missing, empty or whitespace-only. -/
def promptInvalid (req : AskReq) : Bool :=
  match req.prompt with
  | none => true
  | some p => jsTrim p = ""

/-- The `providersToTry` construction: the requested provider first if it is
truthy and a registry key (no credential check there), then every other
registry key whose API-key environment variable is truthy, in registry
declaration order. -/
def providersToTry (env : Env) (requested : Option String) : List String :=
  (match requested with
   | some r => if r ≠ "" ∧ (lookupProvider r).isSome then [r] else []
   | none => []) ++
  (PROVIDERS.filter
      (fun p => decide (requested ≠ some p.1) && truthyS (env p.2.apiKeyEnv))).map
    Prod.fst

/-- One outbound generation attempt as the orchestrator hands it to a
provider (Gemini SDK call or OpenAI-style HTTP call alike): provider key,
resolved model, resolved generation options, and the composed messages. -/
structure AdapterCall where
  provider : String
  model : String
  maxTokens : Int
  temperature : Rat
  messages : List Message
deriving DecidableEq, Repr

/-- What one provider attempt yields, abstracting the network: `ok` is a
2xx response with extracted text and token count (an absent content field is
the empty string); `fail` is a non-2xx response or a thrown error, carrying
the message that the handler renders into `lastError`. -/
inductive AdapterOutcome where
  | ok (text : String) (tokens : Nat)
  | fail (msg : String)
deriving DecidableEq, Repr

/-- A row handed to `saveMessage` (wall-clock timestamp omitted). -/
structure SaveRec where
  session_id : String
  role : String
  content : String
deriving DecidableEq, Repr

/-- The success payload `{response, modelUsed, providerUsed, tokensUsed}`. -/
structure AskSuccess where
  response : String
  modelUsed : String
  providerUsed : String
  tokensUsed : Nat
deriving DecidableEq, Repr

/-- The JSON response of `/api/ask-ai`: 400 on a bad prompt, 500 with the
"No AI providers configured with API keys" message, 500 with the aggregated
failure (message plus `providersAttempted`), or the 200 success shape. -/
inductive AskResult where
  | badRequest (message : String)
  | noProviders (message : String)
  | allFailed (message : String) (providersAttempted : List String)
  | success (s : AskSuccess)
deriving DecidableEq, Repr

/-- Observable side effects of one `/api/ask-ai` request: which session ids
were read from the store, which rows were written, and which provider
attempts were actually invoked, each in order. -/
structure Effects where
  historyReads : List String
  saves : List SaveRec
  calls : List AdapterCall
deriving DecidableEq, Repr

/-- Result of the attempt loop: the final `lastError`, the attempts invoked,
the assistant-turn writes, and the success payload if any. -/
structure LoopOut where
  lastError : Option String
  calls : List AdapterCall
  saves : List SaveRec
  result : Option AskSuccess
deriving Repr

/-- Model resolution inside the loop:
`requestedModel || process.env[config.modelEnv] || config.defaultModel`. -/
def resolveModel (env : Env) (requestedModel : Option String)
    (cfg : ProviderConfig) : String :=
  jsOrS requestedModel (jsOrS (env cfg.modelEnv) cfg.defaultModel)

/-- Resolution `maxTokens || DEFAULT_MAX_TOKENS`. -/
def resolveMaxTokens (env : Env) (req : AskReq) : Int :=
  numOr req.maxTokens (DEFAULT_MAX_TOKENS env)

/-- Resolution `temperature !== undefined ? temperature : DEFAULT_TEMPERATURE`. -/
def resolveTemperature (env : Env) (req : AskReq) : Rat :=
  match req.temperature with
  | some t => t
  | none => DEFAULT_TEMPERATURE env

/-- The provider attempt loop.  For each candidate key: skip when the API
key is falsy (`if (!apiKey) continue`); otherwise resolve the model and
invoke the adapter.  A failed call or a thrown error sets `lastError` to
`"<name>: <msg>"` and continues; an `ok` whose text is empty after trimming
sets `lastError` to `"<name>: Empty response received"` and continues; a
non-empty `ok` saves the assistant turn (when a session id and store are
present) and returns the success payload. -/
def attemptLoop (env : Env) (oracle : AdapterCall → AdapterOutcome)
    (req : AskReq) (persist : Bool) (sid : String) (messages : List Message) :
    List String → Option String → LoopOut
  | [], lastError => ⟨lastError, [], [], none⟩
  | k :: rest, lastError =>
    match lookupProvider k with
    | none => attemptLoop env oracle req persist sid messages rest lastError
    | some cfg =>
      if truthyS (env cfg.apiKeyEnv) = false then
        attemptLoop env oracle req persist sid messages rest lastError
      else
        let modelToUse := resolveModel env req.model cfg
        let call : AdapterCall :=
          ⟨k, modelToUse, resolveMaxTokens env req, resolveTemperature env req, messages⟩
        match oracle call with
        | .fail msg =>
          let out := attemptLoop env oracle req persist sid messages rest
            (some (cfg.name ++ ": " ++ msg))
          { out with calls := call :: out.calls }
        | .ok text tokens =>
          if jsTrim text = "" then
            let out := attemptLoop env oracle req persist sid messages rest
              (some (cfg.name ++ ": Empty response received"))
            { out with calls := call :: out.calls }
          else
            ⟨lastError, [call],
             if persist then [⟨sid, "assistant", text⟩] else [],
             some ⟨text, modelToUse, cfg.name, tokens⟩⟩

/-- The fixed full-stack system instruction (`FULL_STACK_SYSTEM_PROMPT`). -/
def FULL_STACK_SYSTEM_PROMPT : String :=
  "You are an expert full-stack developer. \nAlways generate a complete, production-ready full-stack application based on the requested tech stack.\nThe output MUST follow this specific format for each file:\n\n# /path/to/file.ext\n```extension\nfile content here\n```\n\nYou must include:\n1. /frontend (React/Next.js/etc. with Tailwind CSS)\n2. /backend (Node.js/Express/Flask/etc.)\n3. Database schema (prisma/schema.prisma or SQLite/SQL)\n4. Full package.json files for both frontend and backend\n5. Dockerfile and docker-compose.yml\n6. A detailed README.md with setup and run commands.\n\nFocus on clean, modular code and follow best practices for the chosen stack."

/-- The template catalog is imported from `utils/templates.js`; the handler
only reads `TEMPLATES[templateId]?.systemPrompt`, modelled as a partial map
from template id to its system-prompt string. -/
def TemplateCatalog : Type := String → Option String

/-- System prompt choice `templateId && TEMPLATES[templateId]?.systemPrompt ? prompt + "\n\n" +
FULL_STACK_SYSTEM_PROMPT : FULL_STACK_SYSTEM_PROMPT`. -/
def systemPromptFor (tmpl : TemplateCatalog) (req : AskReq) : String :=
  match req.templateId with
  | some tid =>
    if tid = "" then FULL_STACK_SYSTEM_PROMPT
    else
      match tmpl tid with
      | some sp =>
        if sp = "" then FULL_STACK_SYSTEM_PROMPT
        else sp ++ "\n\n" ++ FULL_STACK_SYSTEM_PROMPT
      | none => FULL_STACK_SYSTEM_PROMPT
  | none => FULL_STACK_SYSTEM_PROMPT

/-- The content of the system message, with the optional stack hint:
`stack ? "Project Stack: " + stack + "\n\n" + systemPrompt : systemPrompt`. -/
def systemContentFor (tmpl : TemplateCatalog) (req : AskReq) : String :=
  match req.stack with
  | some st =>
    if st = "" then systemPromptFor tmpl req
    else "Project Stack: " ++ st ++ "\n\n" ++ systemPromptFor tmpl req
  | none => systemPromptFor tmpl req

/-- Whether the handler touches the store: `sessionId && supabase`. -/
def persistOn (store : Option (List ChatRow)) (req : AskReq) : Bool :=
  truthyS req.sessionId && store.isSome

/-- The history loaded into `messages` (role/content projection of the
stored rows), empty when no session id or no store. -/
def historyMessages (store : Option (List ChatRow)) (req : AskReq) :
    List Message :=
  if persistOn store req then
    (getChatHistory store (req.sessionId.getD "")).map
      (fun r => ⟨r.role, r.content⟩)
  else []

/-- The composed conversation: history, then `unshift` of the one system
message, then `push` of the new user turn. -/
def composedMessages (tmpl : TemplateCatalog) (store : Option (List ChatRow))
    (req : AskReq) : List Message :=
  ⟨"system", systemContentFor tmpl req⟩ ::
    (historyMessages store req ++ [⟨"user", req.prompt.getD ""⟩])

/-- The whole `POST /api/ask-ai` handler: validate the prompt, build the
candidate list and fail fast when it is empty, load history and compose the
conversation, save the user turn (when a session id and store are present),
run the attempt loop, and render either the success response or the
aggregated failure (whose message interpolates `lastError`, printing `null`
when no attempt recorded an error). -/
def askAI (env : Env) (tmpl : TemplateCatalog) (store : Option (List ChatRow))
    (oracle : AdapterCall → AdapterOutcome) (req : AskReq) :
    AskResult × Effects :=
  if promptInvalid req then
    (.badRequest "Missing or empty prompt", ⟨[], [], []⟩)
  else
    let toTry := providersToTry env req.provider
    if toTry.isEmpty then
      (.noProviders "No AI providers configured with API keys", ⟨[], [], []⟩)
    else
      let persist := persistOn store req
      let sid := req.sessionId.getD ""
      let historyReads := if persist then [sid] else []
      let messages := composedMessages tmpl store req
      let userSaves : List SaveRec :=
        if persist then [⟨sid, "user", req.prompt.getD ""⟩] else []
      let lo := attemptLoop env oracle req persist sid messages toTry none
      match lo.result with
      | some s => (.success s, ⟨historyReads, userSaves ++ lo.saves, lo.calls⟩)
      | none =>
        (.allFailed
            ("All AI providers failed. Last error: " ++ jsShowNullable lo.lastError)
            (toTry.map (fun k => ((lookupProvider k).map ProviderConfig.name).getD "")),
         ⟨historyReads, userSaves ++ lo.saves, lo.calls⟩)

/-! ## Concrete scenarios used by witnesses and counterexamples -/

/-- Whether a candidate key has a configured (truthy) API key. -/
def configuredKey (env : Env) (k : String) : Bool :=
  match lookupProvider k with
  | some cfg => truthyS (env cfg.apiKeyEnv)
  | none => false

/-- An attempt that the fallback loop treats as failed: a non-2xx / thrown
call, or a 2xx whose text is empty after trimming. -/
def attemptFailed (oracle : AdapterCall → AdapterOutcome) (c : AdapterCall) :
    Prop :=
  (∃ m, oracle c = .fail m) ∨ ∃ t n, oracle c = .ok t n ∧ jsTrim t = ""

/-- Environment with no variables set. -/
def envEmpty : Env := fun _ => none

/-- Environment where only OpenRouter has an API key. -/
def envOR : Env :=
  fun k => if k = "OPENROUTER_API_KEY" then some "sk-or" else none

/-- Environment where only OpenAI has an API key. -/
def envOA : Env :=
  fun k => if k = "OPENAI_API_KEY" then some "sk-oa" else none

/-- Environment where OpenAI and OpenRouter both have API keys. -/
def envTwo : Env :=
  fun k =>
    if k = "OPENAI_API_KEY" then some "sk-oa"
    else if k = "OPENROUTER_API_KEY" then some "sk-or" else none

/-- Environment where only Gemini has an API key. -/
def envGem : Env :=
  fun k => if k = "GEMINI_API_KEY" then some "sk-g" else none

/-- Environment that sets `IP_RATE_LIMIT=0` and nothing else. -/
def envRate0 : Env :=
  fun k => if k = "IP_RATE_LIMIT" then some "0" else none

/-- Empty template catalog. -/
def tmplEmpty : TemplateCatalog := fun _ => none

/-- Oracle under which every provider attempt fails. -/
def oracleFailAll : AdapterCall → AdapterOutcome := fun _ => .fail "boom"

/-- Oracle under which every provider attempt succeeds. -/
def oracleOk : AdapterCall → AdapterOutcome := fun _ => .ok "resp" 5

/-- Oracle under which OpenAI fails and everything else succeeds. -/
def oracleOpverFails : AdapterCall → AdapterOutcome :=
  fun c => if c.provider = "openai" then .fail "down" else .ok "answer" 7

/-- Request naming provider `openai` with prompt `"hi"`. -/
def reqOpenaiHi : AskReq :=
  ⟨some "hi", some "openai", none, none, none, none, none, none⟩

/-- Request with prompt `"hi"` and no provider preference. -/
def reqHi : AskReq :=
  ⟨some "hi", none, none, none, none, none, none, none⟩

/-- Request with a whitespace-only prompt. -/
def reqBlank : AskReq :=
  ⟨some "   ", none, none, none, none, none, none, none⟩

/-- Request with prompt `"hi"` and an explicit `maxTokens: 0`. -/
def reqMt0 : AskReq :=
  ⟨some "hi", none, none, none, none, none, some 0, none⟩

/-- Request naming `openai`, prompt `"hi"`, session `"s1"`. -/
def reqSession : AskReq :=
  ⟨some "hi", some "openai", none, some "s1", none, none, none, none⟩

/-- The one adapter call of the `envOR`/`reqOpenaiHi` scenario. -/
def orCall : AdapterCall :=
  ⟨"openrouter", "deepseek/deepseek-chat-v3.1", 8000, TEMP_0_7,
   composedMessages tmplEmpty none reqOpenaiHi⟩

/-- The success payload of the `envTwo`/`reqSession` fallback scenario. -/
def fallbackSuccess : AskSuccess :=
  ⟨"answer", "deepseek/deepseek-chat-v3.1", "OpenRouter", 7⟩

/-- The effects of the `envTwo`/`reqSession` fallback scenario. -/
def fallbackEffects : Effects :=
  ⟨["s1"],
   [⟨"s1", "user", "hi"⟩, ⟨"s1", "assistant", "answer"⟩],
   [⟨"openai", "gpt-4o", 8000, TEMP_0_7,
     composedMessages tmplEmpty (some []) reqSession⟩,
    ⟨"openrouter", "deepseek/deepseek-chat-v3.1", 8000, TEMP_0_7,
     composedMessages tmplEmpty (some []) reqSession⟩]⟩

/-- The one adapter call of the `envOA`/`reqHi` scenario. -/
def oaCall : AdapterCall :=
  ⟨"openai", "gpt-4o", 8000, TEMP_0_7, composedMessages tmplEmpty none reqHi⟩

/-- The one adapter call of the `envGem`/`reqHi` scenario. -/
def gemCall : AdapterCall :=
  ⟨"gemini", "gemini-1.5-pro", 8000, TEMP_0_7, composedMessages tmplEmpty none reqHi⟩

/-- Fifty-one stored rows for session `"s"` with `created_at` 0..50. -/
def rows51 : List ChatRow :=
  (List.range 51).map (fun i => ⟨"s", "user", "m", (i : Int)⟩)

/-- A message list with two system messages followed by a user message. -/
def twoSysMessages : List Message :=
  [⟨"system", "a"⟩, ⟨"system", "b"⟩, ⟨"user", "hi"⟩]

/-- The Gemini request built from the composed `reqHi` conversation. -/
def gemWitnessReq : GeminiRequest :=
  ⟨"m", some FULL_STACK_SYSTEM_PROMPT, [], "hi",
   ⟨TEMP_0_7, TOP_P_0_95, 40, 8000⟩, geminiSafetySettings⟩

/-! ## Supporting lemmas -/

theorem attemptLoop_spec (env : Env) (oracle : AdapterCall → AdapterOutcome)
    (req : AskReq) (persist : Bool) (sid : String) (messages : List Message) :
    ∀ (keys : List String) (lastError : Option String),
      (∃ tail,
        ((attemptLoop env oracle req persist sid messages keys lastError).calls.map
            AdapterCall.provider) ++ tail = keys.filter (configuredKey env)) ∧
      (∀ c ∈ (attemptLoop env oracle req persist sid messages keys lastError).calls,
        configuredKey env c.provider = true ∧
        c.messages = messages ∧
        c.maxTokens = resolveMaxTokens env req ∧
        c.temperature = resolveTemperature env req ∧
        ∃ cfg, lookupProvider c.provider = some cfg ∧
          c.model = resolveModel env req.model cfg) ∧
      ((attemptLoop env oracle req persist sid messages keys lastError).result = none →
        (attemptLoop env oracle req persist sid messages keys lastError).saves = []) ∧
      (∀ s, (attemptLoop env oracle req persist sid messages keys lastError).result = some s →
        (attemptLoop env oracle req persist sid messages keys lastError).saves =
          (if persist then [⟨sid, "assistant", s.response⟩] else []) ∧
        jsTrim s.response ≠ "" ∧
        ∃ pre c cfg,
          (attemptLoop env oracle req persist sid messages keys lastError).calls = pre ++ [c] ∧
          (∀ x ∈ pre, attemptFailed oracle x) ∧
          lookupProvider c.provider = some cfg ∧
          oracle c = .ok s.response s.tokensUsed ∧
          s.modelUsed = c.model ∧ s.providerUsed = cfg.name) := by
  intro keys
  induction keys with
  | nil =>
    intro lastError
    refine ⟨⟨[], by simp [attemptLoop]⟩, by simp [attemptLoop], by simp [attemptLoop],
      by simp [attemptLoop]⟩
  | cons k rest ih =>
    intro lastError
    rcases hk : lookupProvider k with _ | cfg
    · have hck : configuredKey env k = false := by simp [configuredKey, hk]
      simp only [attemptLoop, hk, List.filter_cons, hck]
      exact ih lastError
    · by_cases he : truthyS (env cfg.apiKeyEnv) = false
      · have hck : configuredKey env k = false := by simp [configuredKey, hk, he]
        simp only [attemptLoop, hk, he, if_pos rfl, List.filter_cons, hck]
        simpa using ih lastError
      · have he' : truthyS (env cfg.apiKeyEnv) = true := by
          simpa using he
        have hck : configuredKey env k = true := by simp [configuredKey, hk, he']
        rcases ho : oracle ⟨k, resolveModel env req.model cfg,
            resolveMaxTokens env req, resolveTemperature env req, messages⟩
          with ⟨text, tokens⟩ | ⟨msg⟩
        · -- adapter returned ok
          by_cases htrim : jsTrim text = ""
          · -- empty response: recorded as failure, loop continues
            simp only [attemptLoop, hk, he, if_neg he, ho, htrim, if_pos rfl,
              List.filter_cons, hck, if_pos rfl]
            obtain ⟨⟨tail, htail⟩, hgood, hnone, hsome⟩ :=
              ih (some (cfg.name ++ ": Empty response received"))
            refine ⟨⟨tail, by simp [htail]⟩, ?_, ?_, ?_⟩
            · intro c hc
              rcases List.mem_cons.mp hc with hc | hc
              · subst hc
                exact ⟨hck, rfl, rfl, rfl, cfg, hk, rfl⟩
              · exact hgood c hc
            · intro hres
              exact hnone hres
            · intro s hres
              obtain ⟨hsaves, hne, pre, c, cfg2, hcalls, hpre, hlook, horacle, hm, hp⟩ :=
                hsome s hres
              refine ⟨hsaves, hne, ⟨k, resolveModel env req.model cfg,
                resolveMaxTokens env req, resolveTemperature env req, messages⟩ :: pre,
                c, cfg2, by simp [hcalls], ?_, hlook, horacle, hm, hp⟩
              intro x hx
              rcases List.mem_cons.mp hx with hx | hx
              · subst hx
                exact Or.inr ⟨text, tokens, ho, htrim⟩
              · exact hpre x hx
          · -- success: loop returns immediately
            simp only [attemptLoop, hk, he, if_neg he, ho, htrim, if_neg htrim,
              List.filter_cons, hck, if_pos rfl]
            refine ⟨⟨rest.filter (configuredKey env), by simp⟩, ?_, ?_, ?_⟩
            · intro c hc
              rcases List.mem_cons.mp hc with hc | hc
              · subst hc
                exact ⟨hck, rfl, rfl, rfl, cfg, hk, rfl⟩
              · simp at hc
            · intro hres
              simp at hres
            · intro s hres
              have hs : s = ⟨text, resolveModel env req.model cfg, cfg.name, tokens⟩ := by
                simpa using hres.symm
              subst hs
              exact ⟨rfl, htrim, [], ⟨k, resolveModel env req.model cfg,
                resolveMaxTokens env req, resolveTemperature env req, messages⟩, cfg,
                rfl, by simp, hk, ho, rfl, rfl⟩
        · -- adapter failed
          simp only [attemptLoop, hk, he, if_neg he, ho, List.filter_cons, hck, if_pos rfl]
          obtain ⟨⟨tail, htail⟩, hgood, hnone, hsome⟩ := ih (some (cfg.name ++ ": " ++ msg))
          refine ⟨⟨tail, by simp [htail]⟩, ?_, ?_, ?_⟩
          · intro c hc
            rcases List.mem_cons.mp hc with hc | hc
            · subst hc
              exact ⟨hck, rfl, rfl, rfl, cfg, hk, rfl⟩
            · exact hgood c hc
          · intro hres
            exact hnone hres
          · intro s hres
            obtain ⟨hsaves, hne, pre, c, cfg2, hcalls, hpre, hlook, horacle, hm, hp⟩ :=
              hsome s hres
            refine ⟨hsaves, hne, ⟨k, resolveModel env req.model cfg,
              resolveMaxTokens env req, resolveTemperature env req, messages⟩ :: pre,
              c, cfg2, by simp [hcalls], ?_, hlook, horacle, hm, hp⟩
            intro x hx
            rcases List.mem_cons.mp hx with hx | hx
            · subst hx
              exact Or.inl ⟨msg, ho⟩
            · exact hpre x hx

/-! ## Claim theorems -/

/-- C6: a `/api/ask-ai` request whose prompt is absent, empty or
whitespace-only is answered with the 400 validation message, with no history
read, no persisted row and no provider adapter invoked (all effects are
empty). -/
theorem c6_validation_rejects (env : Env) (tmpl : TemplateCatalog)
    (store : Option (List ChatRow)) (oracle : AdapterCall → AdapterOutcome)
    (req : AskReq) (h : promptInvalid req = true) :
    askAI env tmpl store oracle req =
      (.badRequest "Missing or empty prompt", ⟨[], [], []⟩) := by
  simp [askAI, h]

/-- C6 witness: the whitespace-only prompt `"   "` is rejected with empty
effects even with providers configured and a store present. -/
theorem c6_witness :
    promptInvalid reqBlank = true ∧
    askAI envTwo tmplEmpty (some []) oracleOk reqBlank =
      (.badRequest "Missing or empty prompt", ⟨[], [], []⟩) :=
  ⟨by decide, c6_validation_rejects envTwo tmplEmpty (some []) oracleOk reqBlank (by decide)⟩

/-- C1 (amended): a known provider named by the request without a configured
key stays in the candidate list, but the attempt loop never invokes an
adapter for a provider whose key is not configured, and the providers
actually invoked are exactly an initial run of the configured members of the
candidate list in its order (requested first, then registry order). -/
theorem c1_unconfigured_named_provider (env : Env) (tmpl : TemplateCatalog)
    (store : Option (List ChatRow)) (oracle : AdapterCall → AdapterOutcome)
    (req : AskReq) :
    (∀ c ∈ (askAI env tmpl store oracle req).2.calls,
      configuredKey env c.provider = true) ∧
    ∃ tail,
      ((askAI env tmpl store oracle req).2.calls.map AdapterCall.provider) ++ tail =
        (providersToTry env req.provider).filter (configuredKey env) := by
  obtain ⟨⟨tail, htail⟩, hgood, hnone, hsome⟩ :=
    attemptLoop_spec env oracle req (persistOn store req) (req.sessionId.getD "")
      (composedMessages tmpl store req) (providersToTry env req.provider) none
  by_cases h1 : promptInvalid req = true
  · refine ⟨by simp [askAI, h1], ⟨(providersToTry env req.provider).filter (configuredKey env),
      by simp [askAI, h1]⟩⟩
  · have h1' : promptInvalid req = false := by simpa using h1
    by_cases h2 : (providersToTry env req.provider).isEmpty = true
    · refine ⟨by simp [askAI, h1', h2], ⟨(providersToTry env req.provider).filter (configuredKey env),
        by simp [askAI, h1', h2]⟩⟩
    · have h2' : (providersToTry env req.provider).isEmpty = false := by simpa using h2
      rcases hres : (attemptLoop env oracle req (persistOn store req) (req.sessionId.getD "")
          (composedMessages tmpl store req) (providersToTry env req.provider) none).result
        with _ | s0
      · exact ⟨by intro c hc; exact (hgood c (by simpa [askAI, h1', h2', hres] using hc)).1,
          ⟨tail, by simpa [askAI, h1', h2', hres] using htail⟩⟩
      · exact ⟨by intro c hc; exact (hgood c (by simpa [askAI, h1', h2', hres] using hc)).1,
          ⟨tail, by simpa [askAI, h1', h2', hres] using htail⟩⟩

/-- C1 counterexample: with only OpenRouter configured, a request naming
`openai` keeps `openai` in the candidate list — it is reported in
`providersAttempted` — even though its adapter is never invoked (the only
invoked provider is `openrouter`).  The claim's "silently dropped from the
candidate list" is false on the code. -/
theorem c1_counterexample :
    truthyS (envOR "OPENAI_API_KEY") = false ∧
    providersToTry envOR (some "openai") = ["openai", "openrouter"] ∧
    (askAI envOR tmplEmpty none oracleFailAll reqOpenaiHi).1 =
      .allFailed "All AI providers failed. Last error: OpenRouter: boom"
        ["OpenAI", "OpenRouter"] ∧
    ((askAI envOR tmplEmpty none oracleFailAll reqOpenaiHi).2.calls.map
        AdapterCall.provider) = ["openrouter"] := by
  exact ⟨by decide, by decide, by decide, by decide⟩

/-- C1 witness: in the `envOR` scenario the invoked providers are an initial
run of the configured candidates, and the one invoked call is configured. -/
theorem c1_witness :
    configuredKey envOR orCall.provider = true ∧
    ∃ tail,
      ((askAI envOR tmplEmpty none oracleFailAll reqOpenaiHi).2.calls.map
          AdapterCall.provider) ++ tail =
        (providersToTry envOR reqOpenaiHi.provider).filter (configuredKey envOR) := by
  refine ⟨?_, (c1_unconfigured_named_provider envOR tmplEmpty none oracleFailAll reqOpenaiHi).2⟩
  exact (c1_unconfigured_named_provider envOR tmplEmpty none oracleFailAll reqOpenaiHi).1
    orCall (by decide)

/-- C2 (amended): when `/api/ask-ai` succeeds, the response's `providerUsed`
and `modelUsed` are those of the last invoked provider (all earlier invoked
attempts having failed), and with a session id and a store exactly one
user/assistant turn pair is persisted; when every provider fails, the user
turn — written before the attempt loop — is the only persisted row (the
assistant turn is only written on success). -/
theorem c2_fallback_persistence (env : Env) (tmpl : TemplateCatalog)
    (store : Option (List ChatRow)) (oracle : AdapterCall → AdapterOutcome)
    (req : AskReq) :
    (∀ s eff, askAI env tmpl store oracle req = (.success s, eff) →
      (∃ pre c cfg, eff.calls = pre ++ [c] ∧
        (∀ x ∈ pre, attemptFailed oracle x) ∧
        lookupProvider c.provider = some cfg ∧
        oracle c = .ok s.response s.tokensUsed ∧
        s.modelUsed = c.model ∧ s.providerUsed = cfg.name) ∧
      eff.saves = (if persistOn store req then
          [⟨req.sessionId.getD "", "user", req.prompt.getD ""⟩,
           ⟨req.sessionId.getD "", "assistant", s.response⟩] else [])) ∧
    (∀ m ps eff, askAI env tmpl store oracle req = (.allFailed m ps, eff) →
      eff.saves = (if persistOn store req then
          [⟨req.sessionId.getD "", "user", req.prompt.getD ""⟩] else [])) := by
  obtain ⟨⟨tail, htail⟩, hgood, hnone, hsome⟩ :=
    attemptLoop_spec env oracle req (persistOn store req) (req.sessionId.getD "")
      (composedMessages tmpl store req) (providersToTry env req.provider) none
  by_cases h1 : promptInvalid req = true
  · exact ⟨fun s eff h => by simp [askAI, h1] at h, fun m ps eff h => by simp [askAI, h1] at h⟩
  · have h1' : promptInvalid req = false := by simpa using h1
    by_cases h2 : (providersToTry env req.provider).isEmpty = true
    · exact ⟨fun s eff h => by simp [askAI, h1', h2] at h,
        fun m ps eff h => by simp [askAI, h1', h2] at h⟩
    · have h2' : (providersToTry env req.provider).isEmpty = false := by simpa using h2
      rcases hres : (attemptLoop env oracle req (persistOn store req) (req.sessionId.getD "")
          (composedMessages tmpl store req) (providersToTry env req.provider) none).result
        with _ | s0
      · refine ⟨fun s eff h => ?_, fun m ps eff h => ?_⟩
        · simp [askAI, h1', h2', hres] at h
        · have hsaves := hnone hres
          have heff : eff =
              ⟨(if persistOn store req then [req.sessionId.getD ""] else []),
               (if persistOn store req then
                  [⟨req.sessionId.getD "", "user", req.prompt.getD ""⟩] else []) ++
                 (attemptLoop env oracle req (persistOn store req) (req.sessionId.getD "")
                   (composedMessages tmpl store req) (providersToTry env req.provider)
                   none).saves,
               (attemptLoop env oracle req (persistOn store req) (req.sessionId.getD "")
                 (composedMessages tmpl store req) (providersToTry env req.provider)
                 none).calls⟩ := by
            simpa [askAI, h1', h2', hres] using congrArg Prod.snd h.symm
          rw [heff]
          simp [hsaves]
      · refine ⟨fun s eff h => ?_, fun m ps eff h => ?_⟩
        · obtain ⟨hsaves, hne, pre, c, cfg, hcalls, hpre, hlook, horacle, hm, hp⟩ :=
            hsome s0 hres
          have hseq : s = s0 := by
            simpa [askAI, h1', h2', hres] using congrArg Prod.fst h.symm
          subst hseq
          have heff : eff =
              ⟨(if persistOn store req then [req.sessionId.getD ""] else []),
               (if persistOn store req then
                  [⟨req.sessionId.getD "", "user", req.prompt.getD ""⟩] else []) ++
                 (attemptLoop env oracle req (persistOn store req) (req.sessionId.getD "")
                   (composedMessages tmpl store req) (providersToTry env req.provider)
                   none).saves,
               (attemptLoop env oracle req (persistOn store req) (req.sessionId.getD "")
                 (composedMessages tmpl store req) (providersToTry env req.provider)
                 none).calls⟩ := by
            simpa [askAI, h1', h2', hres] using congrArg Prod.snd h.symm
          subst heff
          refine ⟨⟨pre, c, cfg, by simpa using hcalls, hpre, hlook, horacle, hm, hp⟩, ?_⟩
          rw [hsaves]
          cases hper : persistOn store req <;> simp
        · simp [askAI, h1', h2', hres] at h

/-- C2 counterexample: with a session id and a store, when the only
configured provider fails the request returns the aggregated 500 failure and
yet the user turn has already been persisted — the claim's "when every
provider fails no turn is persisted" is false on the code. -/
theorem c2_counterexample :
    (askAI envOA tmplEmpty (some []) oracleFailAll reqSession).1 =
      .allFailed "All AI providers failed. Last error: OpenAI: boom" ["OpenAI"] ∧
    (askAI envOA tmplEmpty (some []) oracleFailAll reqSession).2.saves =
      [⟨"s1", "user", "hi"⟩] := by
  exact ⟨by decide, by decide⟩

/-- C2 witness: OpenAI fails, OpenRouter succeeds; the response reflects
OpenRouter and its model, and exactly the one user/assistant pair is
saved. -/
theorem c2_witness :
    (∃ pre c cfg, fallbackEffects.calls = pre ++ [c] ∧
      (∀ x ∈ pre, attemptFailed oracleOpverFails x) ∧
      lookupProvider c.provider = some cfg ∧
      oracleOpverFails c = .ok fallbackSuccess.response fallbackSuccess.tokensUsed ∧
      fallbackSuccess.modelUsed = c.model ∧
      fallbackSuccess.providerUsed = cfg.name) ∧
    fallbackEffects.saves = (if persistOn (some []) reqSession then
      [⟨reqSession.sessionId.getD "", "user", reqSession.prompt.getD ""⟩,
       ⟨reqSession.sessionId.getD "", "assistant", fallbackSuccess.response⟩] else []) :=
  (c2_fallback_persistence envTwo tmplEmpty (some []) oracleOpverFails reqSession).1
    fallbackSuccess fallbackEffects (by rfl)

/-- C7 (amended): with no provider key configured, a valid-prompt request
that does not name a known provider is answered 500 with the message
"No AI providers configured with API keys" — which contains the substring
"No AI providers configured" — before any history read, persistence or
adapter invocation; a request that names a known provider instead falls
through to the loop and gets the aggregated failure (still with no adapter
invoked, see the counterexample). -/
theorem c7_no_providers (env : Env) (tmpl : TemplateCatalog)
    (store : Option (List ChatRow)) (oracle : AdapterCall → AdapterOutcome)
    (req : AskReq)
    (hkeys : ∀ p ∈ PROVIDERS, truthyS (env p.2.apiKeyEnv) = false)
    (hprompt : promptInvalid req = false)
    (hprov : match req.provider with
             | some r => r = "" ∨ lookupProvider r = none
             | none => True) :
    askAI env tmpl store oracle req =
      (.noProviders "No AI providers configured with API keys", ⟨[], [], []⟩) ∧
    jsIncludes "No AI providers configured with API keys"
      "No AI providers configured" = true := by
  have hempty : providersToTry env req.provider = [] := by
    unfold providersToTry
    have hfilter : PROVIDERS.filter
        (fun p => decide (req.provider ≠ some p.1) && truthyS (env p.2.apiKeyEnv)) = [] := by
      apply List.filter_eq_nil_iff.mpr
      intro p hp
      simp [hkeys p hp]
    rw [hfilter]
    rcases hr : req.provider with _ | r
    · simp
    · rw [hr] at hprov
      rcases hprov with hprov | hprov <;> simp [hprov]
  refine ⟨?_, by decide⟩
  simp [askAI, hprompt, hempty]

/-- C7 witness: no keys configured, no provider named, valid prompt: the
handler fails fast with the expected message and empty effects. -/
theorem c7_witness :
    askAI envEmpty tmplEmpty none oracleFailAll reqHi =
      (.noProviders "No AI providers configured with API keys", ⟨[], [], []⟩) ∧
    jsIncludes "No AI providers configured with API keys"
      "No AI providers configured" = true :=
  c7_no_providers envEmpty tmplEmpty none oracleFailAll reqHi
    (by decide) (by decide) trivial

/-- C7 counterexample: with zero configured providers, a valid-prompt
request naming the known provider `openai` does NOT get the
"No AI providers configured" message: the candidate list is non-empty, so
the handler returns the aggregated "All AI providers failed" message instead
(still without invoking any adapter).  The claim's "every request" is false
on the code. -/
theorem c7_counterexample :
    (∀ p ∈ PROVIDERS, truthyS (envEmpty p.2.apiKeyEnv) = false) ∧
    promptInvalid reqOpenaiHi = false ∧
    (askAI envEmpty tmplEmpty none oracleFailAll reqOpenaiHi).1 =
      .allFailed "All AI providers failed. Last error: null" ["OpenAI"] ∧
    (askAI envEmpty tmplEmpty none oracleFailAll reqOpenaiHi).2.calls = [] ∧
    jsIncludes "All AI providers failed. Last error: null"
      "No AI providers configured" = false := by
  exact ⟨by decide, by decide, by decide, by decide, by decide⟩

/-- C8 (amended): every invoked attempt resolves its model as
`request model || env-configured model || declared default` (JS `||`, so an
empty string also falls back), its `maxTokens` as `request maxTokens ||
DEFAULT_MAX_TOKENS` (so an explicit 0 falls back), and its temperature as
the request's value whenever present (including 0), else
`DEFAULT_TEMPERATURE`; with the variables unset the environment defaults are
8000 tokens and 0.7 temperature. -/
theorem c8_option_resolution (env : Env) (tmpl : TemplateCatalog)
    (store : Option (List ChatRow)) (oracle : AdapterCall → AdapterOutcome)
    (req : AskReq) :
    (∀ c ∈ (askAI env tmpl store oracle req).2.calls,
      (∃ cfg, lookupProvider c.provider = some cfg ∧
        c.model = jsOrS req.model (jsOrS (env cfg.modelEnv) cfg.defaultModel)) ∧
      c.maxTokens = numOr req.maxTokens (DEFAULT_MAX_TOKENS env) ∧
      c.temperature = (match req.temperature with
                       | some t => t
                       | none => DEFAULT_TEMPERATURE env)) ∧
    (env "DEFAULT_MAX_TOKENS" = none → DEFAULT_MAX_TOKENS env = 8000) ∧
    (env "DEFAULT_TEMPERATURE" = none → DEFAULT_TEMPERATURE env = 7 / 10) := by
  obtain ⟨⟨tail, htail⟩, hgood, hnone, hsome⟩ :=
    attemptLoop_spec env oracle req (persistOn store req) (req.sessionId.getD "")
      (composedMessages tmpl store req) (providersToTry env req.provider) none
  refine ⟨?_, ?_, ?_⟩
  · intro c hc
    have hc' : c ∈ (attemptLoop env oracle req (persistOn store req) (req.sessionId.getD "")
        (composedMessages tmpl store req) (providersToTry env req.provider) none).calls := by
      by_cases h1 : promptInvalid req = true
      · simp [askAI, h1] at hc
      · have h1' : promptInvalid req = false := by simpa using h1
        by_cases h2 : (providersToTry env req.provider).isEmpty = true
        · simp [askAI, h1', h2] at hc
        · have h2' : (providersToTry env req.provider).isEmpty = false := by simpa using h2
          rcases hres : (attemptLoop env oracle req (persistOn store req)
              (req.sessionId.getD "") (composedMessages tmpl store req)
              (providersToTry env req.provider) none).result with _ | s0 <;>
            simpa [askAI, h1', h2', hres] using hc
    obtain ⟨_, _, hmt, htp, cfg, hlook, hmodel⟩ := hgood c hc'
    exact ⟨⟨cfg, hlook, hmodel⟩, hmt, htp⟩
  · intro h
    simp [DEFAULT_MAX_TOKENS, h, numOr]
  · intro h
    simp only [DEFAULT_TEMPERATURE, h, Option.bind, ratOr]
    rw [TEMP_0_7, Rat.mk'_eq_divInt, Rat.divInt_eq_div]
    norm_num

/-- C8 counterexample: a request with the explicit generation option
`maxTokens: 0` is forwarded with the default 8000 instead of the explicit 0
(`maxTokens || DEFAULT_MAX_TOKENS` treats 0 as absent).  The claim's "the
request's explicit maxTokens ... if present" is false on the code. -/
theorem c8_counterexample :
    reqMt0.maxTokens = some 0 ∧
    ((askAI envOA tmplEmpty none oracleOk reqMt0).2.calls.map
        (fun c => (c.provider, c.maxTokens))) = [("openai", 8000)] ∧
    (8000 : Int) ≠ 0 := by
  exact ⟨by decide, by decide, by decide⟩

/-- C8 witness: in the one-provider scenario with no explicit options and no
environment defaults, the invoked call uses the declared default model,
8000 tokens and temperature 0.7. -/
theorem c8_witness :
    (∃ cfg, lookupProvider oaCall.provider = some cfg ∧
      oaCall.model = jsOrS reqHi.model (jsOrS (envOA cfg.modelEnv) cfg.defaultModel)) ∧
    oaCall.maxTokens = numOr reqHi.maxTokens (DEFAULT_MAX_TOKENS envOA) ∧
    oaCall.temperature = (match reqHi.temperature with
                          | some t => t
                          | none => DEFAULT_TEMPERATURE envOA) :=
  (c8_option_resolution envOA tmplEmpty none oracleOk reqHi).1 oaCall (by decide)

/-- C3 (code bug): with the environment variable `IP_RATE_LIMIT` set to
`"0"`, `parseInt(v) || 100` evaluates to 100 — not 0 — so rate limiting
stays enabled: a request's timestamp is recorded, and a client with a full
window is answered 429 (`limited = true`).  This contradicts the documented
"0 disables limiting entirely"; the middleware's own `IP_RATE_LIMIT <= 0`
disabled branch is reachable only through negative values. -/
theorem c3_rate_limit_zero_not_disabled :
    envRate0 "IP_RATE_LIMIT" = some "0" ∧
    IP_RATE_LIMIT envRate0 = 100 ∧
    rateLimitStep (IP_RATE_LIMIT envRate0) [] 1000 = (⟨false, 0⟩, [1000]) ∧
    (rateLimitStep (IP_RATE_LIMIT envRate0) (List.replicate 100 1000) 4000).1 =
      ⟨true, 60⟩ ∧
    rateLimitStep (-1) [] 1000 = (⟨false, 0⟩, []) := by
  exact ⟨by decide, by decide, by decide, by decide, by decide⟩

/-- C4 (code bug): the history query orders by `created_at` ascending and
then applies `limit(50)`, so with 51 stored turns it returns the 50 oldest
(`created_at` 0..49) oldest-first and drops the newest turn — contradicting
both the claim's "the 50 most recent" and the code's own "Limit to last 50
messages" comment.  The cap of 50 and the oldest-first order do hold. -/
theorem c4_history_returns_oldest :
    rows51.length = 51 ∧
    (getChatHistory (some rows51) "s").length = 50 ∧
    (getChatHistory (some rows51) "s").map ChatRow.created_at =
      (List.range 50).map (fun i => (i : Int)) ∧
    (⟨"s", "user", "m", 50⟩ : ChatRow) ∈ rows51 ∧
    (⟨"s", "user", "m", 50⟩ : ChatRow) ∉ getChatHistory (some rows51) "s" := by
  exact ⟨by decide, by decide, by decide, by decide, by decide⟩

theorem processRequests_append (limit : Int) (a b acc : List Int) :
    processRequests limit (a ++ b) acc =
      ((processRequests limit a acc).1 ++
        (processRequests limit b (processRequests limit a acc).2).1,
       (processRequests limit b (processRequests limit a acc).2).2) := by
  induction a generalizing acc with
  | nil => simp [processRequests]
  | cons t rest ih => simp [processRequests, ih]

theorem processRequests_admit_all (limit : Int) (ts : List Int) (T : Int) :
    ∀ acc : List Int, 0 < limit →
      ((acc.length : Int) + ts.length ≤ limit) →
      (∀ x ∈ acc, T - 3600000 < x) →
      (∀ t ∈ ts, T - 3600000 < t ∧ t ≤ T) →
      processRequests limit ts acc =
        (ts.map (fun _ => (⟨false, 0⟩ : RateDecision)), acc ++ ts) := by
  induction ts with
  | nil => intro acc _ _ _ _; simp [processRequests]
  | cons t rest ih =>
    intro acc hpos hlen hacc hts
    have hkeep : acc.filter (fun x => t - 3600000 < x) = acc := by
      apply List.filter_eq_self.mpr
      intro x hx
      have h1 := hacc x hx
      have h2 := (hts t (by simp)).2
      simp only [decide_eq_true_eq]
      omega
    have hstep : rateLimitStep limit acc t = (⟨false, 0⟩, acc ++ [t]) := by
      unfold rateLimitStep
      rw [if_neg (by omega)]
      simp only [hkeep]
      rw [if_neg (by simp at hlen ⊢; omega)]
    have hrest : processRequests limit rest (acc ++ [t]) =
        (rest.map (fun _ => (⟨false, 0⟩ : RateDecision)), (acc ++ [t]) ++ rest) := by
      apply ih (acc ++ [t]) hpos
      · simp at hlen ⊢; omega
      · intro x hx
        rcases List.mem_append.mp hx with hx | hx
        · exact hacc x hx
        · have := (hts t (by simp)).1
          simp at hx
          omega
      · intro x hx
        exact hts x (by simp [hx])
    simp [processRequests, hstep, hrest]

theorem foldl_min_lt (bound : Int) :
    ∀ (xs : List Int) (x : Int), bound < x → (∀ t ∈ xs, bound < t) →
      bound < xs.foldl min x := by
  intro xs
  induction xs with
  | nil => intro x hx _; simpa using hx
  | cons y ys ih =>
    intro x hx hys
    simp only [List.foldl_cons]
    apply ih
    · have := hys y (by simp)
      omega
    · intro t ht
      exact hys t (by simp [ht])

theorem listMin_gt (bound : Int) (ts : List Int) (hne : ts ≠ [])
    (h : ∀ t ∈ ts, bound < t) : bound < listMin ts := by
  rcases ts with _ | ⟨x, xs⟩
  · exact absurd rfl hne
  · unfold listMin
    apply foldl_min_lt
    · exact h x (by simp)
    · intro t ht
      exact h t (by simp [ht])

theorem jsCeilDiv_ge_one (x : Int) (h : 1 ≤ x) : 1 ≤ jsCeilDiv x 60000 := by
  show 1 ≤ (x + 60000 - 1) / 60000
  omega

/-- C5: with rate limiting enabled at capacity `N > 0`: every admission
check leaves only timestamps inside the trailing 3600-second window; a
client whose `N` admitted requests all fall inside the window of a further
request at time `T` is rejected on that request with `waitTimeMinutes`
computed by `ceil((min + 3600000 − T) / 60000)` from the oldest remaining
timestamp, and that value is at least 1; after the window expires (a request
at `tLater` past every stored timestamp plus 3600000) the same client is
admitted again. -/
theorem c5_sliding_window (limit : Int) (ts : List Int) (T tLater : Int)
    (hpos : 0 < limit)
    (hlen : (ts.length : Int) = limit)
    (hwin : ∀ t ∈ ts, T - 3600000 < t ∧ t ≤ T)
    (hlater : ∀ t ∈ ts, t + 3600000 ≤ tLater) :
    (∀ (times : List Int) (now : Int),
      ∀ x ∈ (rateLimitStep limit times now).2, now - 3600000 < x) ∧
    1 ≤ jsCeilDiv (listMin ts + 3600000 - T) 60000 ∧
    processRequests limit (ts ++ [T, tLater]) [] =
      (ts.map (fun _ => (⟨false, 0⟩ : RateDecision)) ++
        [⟨true, jsCeilDiv (listMin ts + 3600000 - T) 60000⟩, ⟨false, 0⟩],
       [tLater]) := by
  have hne : ts ≠ [] := by
    intro h
    rw [h] at hlen
    simp at hlen
    omega
  refine ⟨?_, ?_, ?_⟩
  · intro times now x hx
    unfold rateLimitStep at hx
    rw [if_neg (by omega)] at hx
    by_cases hlim : limit ≤ (((times.filter (fun t => now - 3600000 < t)).length : Nat) : Int)
    · rw [if_pos hlim] at hx
      have := List.mem_filter.mp hx
      simpa using this.2
    · rw [if_neg hlim] at hx
      rcases List.mem_append.mp hx with hx | hx
      · have := List.mem_filter.mp hx
        simpa using this.2
      · simp at hx
        omega
  · apply jsCeilDiv_ge_one
    have := listMin_gt (T - 3600000) ts hne (fun t ht => (hwin t ht).1)
    omega
  · have hfirst := processRequests_admit_all limit ts T [] hpos
      (by simp [hlen]) (by simp) hwin
    rw [processRequests_append, hfirst]
    have hkeepT : ts.filter (fun t => T - 3600000 < t) = ts := by
      apply List.filter_eq_self.mpr
      intro t ht
      simpa using (hwin t ht).1
    have hstepT : rateLimitStep limit ts T =
        (⟨true, jsCeilDiv (listMin ts + 3600000 - T) 60000⟩, ts) := by
      unfold rateLimitStep
      rw [if_neg (by omega)]
      simp only [hkeepT]
      rw [if_pos (by omega)]
    have hkeepL : ts.filter (fun t => tLater - 3600000 < t) = [] := by
      apply List.filter_eq_nil_iff.mpr
      intro t ht
      have := hlater t ht
      simp only [decide_eq_true_eq]
      omega
    have hstepL : rateLimitStep limit ts tLater = (⟨false, 0⟩, [tLater]) := by
      unfold rateLimitStep
      rw [if_neg (by omega)]
      simp only [hkeepL]
      rw [if_neg (by simpa using hpos)]
      rfl
    simp [processRequests, hstepT, hstepL]

/-- C5 witness: limit 2, two admitted requests at 1000 and 2000, a third at
3000 rejected with `waitTimeMinutes = 60 ≥ 1`, and a request at 3602000
admitted again with only its own timestamp left recorded. -/
theorem c5_witness :
    1 ≤ jsCeilDiv (listMin [1000, 2000] + 3600000 - 3000) 60000 ∧
    processRequests 2 ([1000, 2000] ++ [3000, 3602000]) [] =
      (([1000, 2000].map (fun _ => (⟨false, 0⟩ : RateDecision))) ++
        [⟨true, jsCeilDiv (listMin [1000, 2000] + 3600000 - 3000) 60000⟩, ⟨false, 0⟩],
       [3602000]) := by
  have h := c5_sliding_window 2 [1000, 2000] 3000 3602000 (by norm_num) (by norm_num)
    (by decide) (by decide)
  exact ⟨h.2.1, h.2.2⟩

/-- C9 (amended): in every request the Gemini adapter builds, the main
message array contains no system role (every entry is `model` or `user`,
with assistant mapped to `model`); the system-instruction field carries the
content of the FIRST system message when that content is non-empty (an empty
one omits the field, and any later system message's content is dropped); and
the generation config always fixes `topP = 0.95` and `topK = 40` and the
four content-safety thresholds at block-medium-and-above, independent of the
caller's options. -/
theorem c9_gemini_translation (modelName : String) (messages : List Message)
    (options : GeminiOptions) (r : GeminiRequest)
    (h : geminiBuildRequest modelName messages options = some r) :
    (∀ c ∈ r.history, c.role ≠ "system" ∧ (c.role = "model" ∨ c.role = "user")) ∧
    r.history =
      ((messages.filter (fun m => m.role ≠ "system")).map geminiMapMsg).dropLast ∧
    (∀ m ∈ messages, m.role = "assistant" → geminiMapMsg m = ⟨"model", m.content⟩) ∧
    r.systemInstruction =
      (match (messages.find? (fun m => m.role = "system")).map Message.content with
       | some s => if s = "" then none else some s
       | none => none) ∧
    r.generationConfig.topP = TOP_P_0_95 ∧
    TOP_P_0_95 = 19 / 20 ∧
    r.generationConfig.topK = 40 ∧
    r.safetySettings =
      [⟨"HARM_CATEGORY_HARASSMENT", "BLOCK_MEDIUM_AND_ABOVE"⟩,
       ⟨"HARM_CATEGORY_HATE_SPEECH", "BLOCK_MEDIUM_AND_ABOVE"⟩,
       ⟨"HARM_CATEGORY_SEXUALLY_EXPLICIT", "BLOCK_MEDIUM_AND_ABOVE"⟩,
       ⟨"HARM_CATEGORY_DANGEROUS_CONTENT", "BLOCK_MEDIUM_AND_ABOVE"⟩] := by
  unfold geminiBuildRequest at h
  rcases hlast : ((messages.filter (fun m => m.role ≠ "system")).map
      geminiMapMsg).getLast? with _ | last
  · simp only [hlast] at h
    exact Option.noConfusion h
  · simp only [hlast, Option.some.injEq] at h
    subst h
    refine ⟨?_, rfl, ?_, rfl, rfl, ?_, rfl, rfl⟩
    · intro c hc
      have hc2 : c ∈ (messages.filter (fun m => m.role ≠ "system")).map geminiMapMsg :=
        List.dropLast_subset _ hc
      obtain ⟨m, _, hm⟩ := List.mem_map.mp hc2
      subst hm
      unfold geminiMapMsg
      by_cases ha : m.role = "assistant" <;> simp [ha]
    · intro m _ ha
      unfold geminiMapMsg
      simp [ha]
    · rw [TOP_P_0_95, Rat.mk'_eq_divInt, Rat.divInt_eq_div]
      norm_num

/-- C9 counterexample: on a message list with two system messages, the
second system message's content `"b"` is excluded from the main array but is
NOT passed via the system-instruction field (only the first one, `"a"`, is);
`"b"` appears nowhere in the built request, so the claim's "system-role
content ... passed via the separate system-instruction field" is false at
this input. -/
theorem c9_counterexample :
    (⟨"system", "b"⟩ : Message) ∈ twoSysMessages ∧
    geminiBuildRequest "m" twoSysMessages ⟨some 5, some HALF⟩ =
      some ⟨"m", some "a", [], "hi", ⟨HALF, TOP_P_0_95, 40, 5⟩, geminiSafetySettings⟩ ∧
    some "b" ≠ some "a" := by
  exact ⟨by decide, by decide, by decide⟩

/-- C9 witness: the request built from the composed `/api/ask-ai`
conversation fixes `topP`, carries the fixed safety settings, and passes the
system prompt through the system-instruction field. -/
theorem c9_witness :
    gemWitnessReq.generationConfig.topP = TOP_P_0_95 ∧
    gemWitnessReq.systemInstruction =
      (match ((composedMessages tmplEmpty none reqHi).find?
          (fun m => m.role = "system")).map Message.content with
       | some s => if s = "" then none else some s
       | none => none) ∧
    gemWitnessReq.safetySettings =
      [⟨"HARM_CATEGORY_HARASSMENT", "BLOCK_MEDIUM_AND_ABOVE"⟩,
       ⟨"HARM_CATEGORY_HATE_SPEECH", "BLOCK_MEDIUM_AND_ABOVE"⟩,
       ⟨"HARM_CATEGORY_SEXUALLY_EXPLICIT", "BLOCK_MEDIUM_AND_ABOVE"⟩,
       ⟨"HARM_CATEGORY_DANGEROUS_CONTENT", "BLOCK_MEDIUM_AND_ABOVE"⟩] := by
  obtain ⟨_, _, _, hsys, htop, _, _, hsafe⟩ :=
    c9_gemini_translation "m" (composedMessages tmplEmpty none reqHi)
      ⟨some 8000, some TEMP_0_7⟩ gemWitnessReq (by decide)
  exact ⟨htop, hsys, hsafe⟩

theorem askAI_calls_sub (env : Env) (tmpl : TemplateCatalog)
    (store : Option (List ChatRow)) (oracle : AdapterCall → AdapterOutcome)
    (req : AskReq) :
    ∀ c ∈ (askAI env tmpl store oracle req).2.calls,
      c ∈ (attemptLoop env oracle req (persistOn store req) (req.sessionId.getD "")
        (composedMessages tmpl store req) (providersToTry env req.provider) none).calls := by
  intro c hc
  by_cases h1 : promptInvalid req = true
  · simp [askAI, h1] at hc
  · have h1' : promptInvalid req = false := by simpa using h1
    by_cases h2 : (providersToTry env req.provider).isEmpty = true
    · simp [askAI, h1', h2] at hc
    · have h2' : (providersToTry env req.provider).isEmpty = false := by simpa using h2
      rcases hres : (attemptLoop env oracle req (persistOn store req)
          (req.sessionId.getD "") (composedMessages tmpl store req)
          (providersToTry env req.provider) none).result with _ | s0 <;>
        simpa [askAI, h1', h2', hres] using hc

/-- C10: `GeminiProvider.generateResponse` builds no request — it
dereferences an undefined element and throws — exactly when its message list
contains only system-role messages; otherwise it sends the last non-system
message as the chat turn with the earlier converted messages as history.
Every message list the HTTP surface hands to an adapter satisfies the
precondition: each `/api/ask-ai` adapter call's composed conversation ends
with the new user turn, and the `/api/test-connection` gemini branch sends a
fixed user ping, so the crash branch is unreachable from the gateway. -/
theorem c10_gemini_precondition :
    (∀ (mn : String) (ms : List Message) (o : GeminiOptions),
      geminiBuildRequest mn ms o = none ↔ ∀ m ∈ ms, m.role = "system") ∧
    (∀ (mn : String) (ms : List Message) (o : GeminiOptions) (r : GeminiRequest),
      geminiBuildRequest mn ms o = some r →
      ∃ last,
        ((ms.filter (fun m => m.role ≠ "system")).map geminiMapMsg).getLast? = some last ∧
        r.history = ((ms.filter (fun m => m.role ≠ "system")).map geminiMapMsg).dropLast ∧
        r.message = last.text) ∧
    (∀ (env : Env) (tmpl : TemplateCatalog) (store : Option (List ChatRow))
      (oracle : AdapterCall → AdapterOutcome) (req : AskReq),
      ∀ c ∈ (askAI env tmpl store oracle req).2.calls,
        ∀ (mn : String) (o : GeminiOptions),
          (geminiBuildRequest mn c.messages o).isSome = true) ∧
    (∀ (mn : String) (o : GeminiOptions),
      (geminiBuildRequest mn testConnectionGeminiMessages o).isSome = true) := by
  have hnone : ∀ (mn : String) (ms : List Message) (o : GeminiOptions),
      geminiBuildRequest mn ms o = none ↔ ∀ m ∈ ms, m.role = "system" := by
    intro mn ms o
    constructor
    · intro h
      unfold geminiBuildRequest at h
      rcases hlast : ((ms.filter (fun m => m.role ≠ "system")).map
          geminiMapMsg).getLast? with _ | last
      · rw [List.getLast?_eq_none_iff, List.map_eq_nil_iff,
          List.filter_eq_nil_iff] at hlast
        intro m hm
        have := hlast m hm
        simpa using this
      · simp only [hlast] at h
        exact Option.noConfusion h
    · intro hall
      unfold geminiBuildRequest
      have h1 : ms.filter (fun m => m.role ≠ "system") = [] := by
        apply List.filter_eq_nil_iff.mpr
        intro m hm
        simp [hall m hm]
      simp only [h1, List.map_nil, List.getLast?_nil]
  refine ⟨hnone, ?_, ?_, ?_⟩
  · intro mn ms o r h
    unfold geminiBuildRequest at h
    rcases hlast : ((ms.filter (fun m => m.role ≠ "system")).map
        geminiMapMsg).getLast? with _ | last
    · simp only [hlast] at h
      exact Option.noConfusion h
    · simp only [hlast, Option.some.injEq] at h
      subst h
      exact ⟨last, hlast, rfl, rfl⟩
  · intro env tmpl store oracle req c hc mn o
    obtain ⟨_, hmsg, _, _, _⟩ :=
      (attemptLoop_spec env oracle req (persistOn store req) (req.sessionId.getD "")
        (composedMessages tmpl store req) (providersToTry env req.provider) none).2.1
        c (askAI_calls_sub env tmpl store oracle req c hc)
    rcases hb : geminiBuildRequest mn c.messages o with _ | r
    · exfalso
      have hall := (hnone mn c.messages o).mp hb
      have hu : (⟨"user", req.prompt.getD ""⟩ : Message) ∈ c.messages := by
        rw [hmsg]
        unfold composedMessages
        simp
      have := hall _ hu
      simp at this
    · rfl
  · intro mn o
    rcases hb : geminiBuildRequest mn testConnectionGeminiMessages o with _ | r
    · exfalso
      have hall := (hnone mn testConnectionGeminiMessages o).mp hb
      have := hall ⟨"user", "Ping"⟩ (by simp [testConnectionGeminiMessages])
      simp at this
    · rfl

/-- C10 witness: the Gemini call of the one-provider `/api/ask-ai` scenario
builds a request (no crash), and a system-only message list builds none. -/
theorem c10_witness :
    (geminiBuildRequest "gemini-1.5-pro" gemCall.messages ⟨some 10, none⟩).isSome = true ∧
    geminiBuildRequest "m" [⟨"system", "x"⟩] ⟨none, none⟩ = none := by
  constructor
  · exact c10_gemini_precondition.2.2.1 envGem tmplEmpty none oracleOk reqHi gemCall
      (by decide) "gemini-1.5-pro" ⟨some 10, none⟩
  · exact (c10_gemini_precondition.1 "m" [⟨"system", "x"⟩] ⟨none, none⟩).mpr (by decide)

end VibPlay
